import Mathlib

/-!
# objToGltf.js: the OBJ to glTF conversion wrapper

A shallow embedding of `src/objToGltf.js`.  The script is I/O orchestration, so
the embedding makes the host explicit: everything the script asks of Node.js
(the file system, module resolution, `child_process.exec`, the `path` module,
the high-resolution clock, number formatting) is a field of `Host`, and every
interaction with the host is recorded, in program order, as an `Event`.
A call returns its value together with the events it emitted and the number of
clock readings taken so far.
-/

namespace ObjToGltf

/-! ## JavaScript values and objects -/

/-- JavaScript values an option key can hold. -/
inductive JsValue where
  | undefined
  | null
  | bool (b : Bool)
  | number (n : Int)
  | nan
  | string (s : String)
  | object
  deriving DecidableEq, Repr

/-- JavaScript truthiness (`ToBoolean`): `undefined`, `null`, `false`, `0`, `NaN`
and the empty string are falsy, everything else is truthy. -/
def JsValue.truthy : JsValue → Bool
  | .undefined => false
  | .null => false
  | .bool b => b
  | .number n => n != 0
  | .nan => false
  | .string s => s != ""
  | .object => true

/-- An options object: its own properties in insertion order. -/
abbrev Options := List (String × JsValue)

/-- Property access `options.key`; a missing property reads as `undefined`. -/
def Options.get (options : Options) (key : String) : JsValue :=
  (List.lookup key options).getD JsValue.undefined

/-- The keys of an options object, in insertion order. -/
def Options.keys (options : Options) : List String :=
  options.map Prod.fst

/-- A JavaScript error object: its message and its further own properties
(`code`, `cmd`, `stderr`, ...).  `new Error(m)` has no further properties. -/
structure JsError where
  message : String
  props : List (String × String)
  deriving DecidableEq, Repr

/-- The object built by `new Error(message)`. -/
def newError (message : String) : JsError :=
  ⟨message, []⟩

/-- What `promisify(exec)` resolves with: the captured output streams. -/
structure ExecOutput where
  stdout : String
  stderr : String
  deriving DecidableEq, Repr

/-! ## The host -/

/-- Console levels: `console.log`, `console.warn`, `console.error`. -/
inductive Level where
  | log
  | warn
  | error
  deriving DecidableEq, Repr

/-- One interaction with the host, or the entry into `convertObjToGltf`. -/
inductive Event where
  | enterConvert (inputPath : String) (outputPath : Option String)
  | hrtime
  | existsSync (path : String)
  | pathDirname (path : String)
  | pathExtname (path : String)
  | pathBasename (path : String) (ext : String)
  | pathJoin (dir : String) (file : String)
  | pathResolve (path : String)
  | requireResolve (request : String)
  | exec (command : String)
  | console (level : Level) (text : String)
  | exit (code : Nat)
  deriving DecidableEq, Repr

/-- The Node.js facilities the script uses.  `hrtime n` is the value of the
`n`-th reading of `process.hrtime.bigint()`; `msFixed2 d` and `secFixed2 d` are
the texts of `(Number(d) / 1000000).toFixed(2)` and
`(Number(d) / 1000000 / 1000).toFixed(2)`; `inspect` is how `console.error`
renders an error object passed as an extra argument. -/
structure Host where
  existsSync : String → Bool
  requireResolve : String → Except JsError String
  exec : String → Except JsError ExecOutput
  hrtime : Nat → Int
  msFixed2 : Int → String
  secFixed2 : Int → String
  dirname : String → String
  extname : String → String
  basename : String → String → String
  join : String → String → String
  resolve : String → String
  inspect : JsError → String

/-- The outcome of running a piece of the script: its value, the events it
emitted in order, and the number of clock readings taken so far. -/
structure Run (α : Type) where
  value : α
  events : List Event
  ticks : Nat

/-! ## JavaScript library functions used on strings and arrays -/

/-- The method `Array.prototype.join` on an array of strings. -/
def jsJoin (sep : String) : List String → String
  | [] => ""
  | [x] => x
  | x :: y :: rest => x ++ sep ++ jsJoin sep (y :: rest)

/-- The method `String.prototype.includes`: `pat` occurs in `s` as a contiguous
substring. -/
def jsIncludes (s pat : String) : Bool :=
  s.data.tails.any (fun t => pat.data.isPrefixOf t)

/-- Truthiness of a string: only the empty string is falsy. -/
def strTruthy (s : String) : Bool :=
  s != ""

/-! ## convertObjToGltf -/

/-- The statement `if (cond) { args.push(flag); }`. -/
def pushIf (cond : Bool) (flag : String) (args : List String) : List String :=
  if cond then args ++ [flag] else args

/-- Lines 36 to 66: the argument array built from the paths and the options. -/
def buildArgs (inputPath outputPath : String) (options : Options) : List String :=
  let args : List String := []
  let args := args ++ ["-i \"" ++ inputPath ++ "\""]
  let args := args ++ ["-o \"" ++ outputPath ++ "\""]
  let args := pushIf (options.get "binary").truthy "-b" args
  let args := pushIf (options.get "separate").truthy "-s" args
  let args := pushIf (options.get "separateTextures").truthy "-t" args
  let args := pushIf (options.get "checkTransparency").truthy "--checkTransparency" args
  let args := pushIf (options.get "secure").truthy "--secure" args
  let args := pushIf (options.get "packOcclusion").truthy "--packOcclusion" args
  let args := pushIf (options.get "metallicRoughness").truthy "--metallicRoughness" args
  let args := pushIf (options.get "specularGlossiness").truthy "--specularGlossiness" args
  let args := pushIf (options.get "unlit").truthy "--unlit" args
  args

/-- Line 69: the command line handed to `exec`. -/
def buildCommand (obj2gltfPath : String) (args : List String) : String :=
  "node \"" ++ obj2gltfPath ++ "\" " ++ jsJoin " " args

/-- The timing text shared by all timing lines:
the milliseconds and the seconds, each with two decimals. -/
def timingText (h : Host) (durationNs : Int) : String :=
  h.msFixed2 durationNs ++ "ms (" ++ h.secFixed2 durationNs ++ "s)"

/-- Lines 27 to 29: the default output path, next to the input with the
extension replaced by `.gltf`, and the four calls into the `path` module that
compute it, in evaluation order. -/
def deriveOutput (h : Host) (inputPath : String) : String × List Event :=
  let inputDir := h.dirname inputPath
  let ext := h.extname inputPath
  let inputName := h.basename inputPath ext
  (h.join inputDir (inputName ++ ".gltf"),
    [Event.pathDirname inputPath, Event.pathExtname inputPath,
     Event.pathBasename inputPath ext, Event.pathJoin inputDir (inputName ++ ".gltf")])

/-- Lines 26 to 30: the effective output path with the events of computing it.
A truthy `outputPath` is kept as it is; under `!outputPath` the default is
derived. -/
def effectiveOutput (h : Host) (inputPath : String) (outputPath : Option String) :
    String × List Event :=
  match outputPath with
  | some s => if !strTruthy s then deriveOutput h inputPath else (s, [])
  | none => deriveOutput h inputPath

/-- Lines 20 to 85: the body of the `try` block.  `startTime` is the clock
reading taken at line 17 and `ticks` the number of readings taken so far.
A thrown error is the `Except.error` value. -/
def tryBody (h : Host) (inputPath : String) (outputPath : Option String)
    (options : Options) (startTime : Int) (ticks : Nat) : Run (Except JsError String) :=
  if !h.existsSync inputPath then
    ⟨.error (newError ("Input file not found: " ++ inputPath)),
      [Event.existsSync inputPath], ticks⟩
  else
    let out := effectiveOutput h inputPath outputPath
    let outputPath := out.1
    let ev := [Event.existsSync inputPath] ++ out.2
      ++ [Event.requireResolve "obj2gltf/bin/obj2gltf.js"]
    match h.requireResolve "obj2gltf/bin/obj2gltf.js" with
    | .error e => ⟨.error e, ev, ticks⟩
    | .ok obj2gltfPath =>
      let args := buildArgs inputPath outputPath options
      let command := buildCommand obj2gltfPath args
      let ev := ev ++ [Event.exec command]
      match h.exec command with
      | .error e => ⟨.error e, ev, ticks⟩
      | .ok result =>
        let ev :=
          if strTruthy result.stderr && !jsIncludes result.stderr "Warning" then
            ev ++ [Event.console Level.warn result.stderr]
          else ev
        let endTime := h.hrtime ticks
        let durationNs := endTime - startTime
        let ev := ev ++ [Event.hrtime,
          Event.console Level.log
            ("Successfully converted " ++ inputPath ++ " to " ++ outputPath),
          Event.console Level.log ("변환 소요 시간: " ++ timingText h durationNs)]
        ⟨.ok outputPath, ev, ticks + 1⟩

/-- Lines 15 to 97: `convertObjToGltf(inputPath, outputPath = null, options)`.
The promise resolves with `Except.ok` and rejects with `Except.error`. -/
def convertObjToGltf (h : Host) (inputPath : String) (outputPath : Option String)
    (options : Options) (ticks : Nat) : Run (Except JsError String) :=
  let startTime := h.hrtime ticks
  let body := tryBody h inputPath outputPath options startTime (ticks + 1)
  match body.value with
  | .ok out =>
    ⟨.ok out, [Event.enterConvert inputPath outputPath, Event.hrtime] ++ body.events,
      body.ticks⟩
  | .error error =>
    let endTime := h.hrtime body.ticks
    let durationNs := endTime - startTime
    ⟨.error error,
      [Event.enterConvert inputPath outputPath, Event.hrtime] ++ body.events ++
        [Event.hrtime,
         Event.console Level.error ("Error converting OBJ to glTF: " ++ error.message),
         Event.console Level.error ("실패까지 소요 시간: " ++ timingText h durationNs)],
      body.ticks + 1⟩

/-- The command line a call hands to `exec` once the converter is found at
`tool`: line 69 applied to the argument array of lines 36 to 66. -/
def commandFor (h : Host) (tool inputPath : String) (outputPath : Option String)
    (options : Options) : String :=
  buildCommand tool (buildArgs inputPath (effectiveOutput h inputPath outputPath).1 options)

/-- The events every call starts with: the entry, the clock reading of line 17
and the existence check of line 21. -/
def openingEvents (inputPath : String) (outputPath : Option String) : List Event :=
  [Event.enterConvert inputPath outputPath, Event.hrtime, Event.existsSync inputPath]

/-- The events of the `catch` block, lines 88 to 94. -/
def failureEvents (h : Host) (error : JsError) (durationNs : Int) : List Event :=
  [Event.hrtime,
   Event.console Level.error ("Error converting OBJ to glTF: " ++ error.message),
   Event.console Level.error ("실패까지 소요 시간: " ++ timingText h durationNs)]

/-! ## The command-line entry point -/

/-- The three usage lines written when no argument is given. -/
def usageLines : List String :=
  ["사용법: node objToGltf.js <input.obj> [output.gltf]",
   "예시: node objToGltf.js assets/1/model.obj assets/1/model.gltf",
   "예시: node objToGltf.js assets/1/model.obj  (출력 경로 자동 생성)"]

/-- Line 111: `args[1] ? path.resolve(args[1]) : null`, with its events. -/
def cliOutputFile (h : Host) (rest : List String) : Option String × List Event :=
  match rest with
  | [] => (none, [])
  | a1 :: _ => if strTruthy a1 then (some (h.resolve a1), [Event.pathResolve a1]) else (none, [])

/-- Lines 100 to 136: the command-line interface.  `isMain` is
`require.main === module` and `processArgv` is `process.argv`.  The value is the
status passed to `process.exit`, or `none` when `process.exit` is never called
(the process then ends with the implicit status 0).  `process.exit` ends the
process, so nothing runs after it. -/
def cli (h : Host) (isMain : Bool) (processArgv : List String) : Run (Option Nat) :=
  if !isMain then ⟨none, [], 0⟩
  else
    match processArgv.drop 2 with
    | [] =>
      ⟨some 1, usageLines.map (Event.console Level.error) ++ [Event.exit 1], 0⟩
    | a0 :: rest =>
      let inputFile := h.resolve a0
      let outputFile := cliOutputFile h rest
      let cliStartTime := h.hrtime 0
      let r := convertObjToGltf h inputFile outputFile.1 [] 1
      let ev := [Event.pathResolve a0] ++ outputFile.2 ++ [Event.hrtime] ++ r.events
      let cliEndTime := h.hrtime r.ticks
      let cliDurationNs := cliEndTime - cliStartTime
      match r.value with
      | .ok outputPath =>
        ⟨none, ev ++ [Event.hrtime,
          Event.console Level.log ("Conversion completed: " ++ outputPath),
          Event.console Level.log ("전체 실행 시간: " ++ timingText h cliDurationNs)],
          r.ticks + 1⟩
      | .error error =>
        ⟨some 1, ev ++ [Event.hrtime,
          Event.console Level.error ("Conversion failed: " ++ h.inspect error),
          Event.console Level.error ("전체 실행 시간: " ++ timingText h cliDurationNs),
          Event.exit 1],
          r.ticks + 1⟩

/-! ## Reading a run -/

/-- The commands handed to `exec`, in order. -/
def execCalls (events : List Event) : List String :=
  events.filterMap fun e => match e with
    | Event.exec c => some c
    | _ => none

/-- The requests handed to `require.resolve`, in order. -/
def resolveCalls (events : List Event) : List String :=
  events.filterMap fun e => match e with
    | Event.requireResolve m => some m
    | _ => none

/-- The calls of `convertObjToGltf`, in order. -/
def convertCalls (events : List Event) : List (String × Option String) :=
  events.filterMap fun e => match e with
    | Event.enterConvert i o => some (i, o)
    | _ => none

/-- The texts written to the console at one level, in order. -/
def consoleAt (level : Level) (events : List Event) : List String :=
  events.filterMap fun e => match e with
    | Event.console l t => if l = level then some t else none
    | _ => none

/-- The statuses passed to `process.exit`, in order. -/
def exitCalls (events : List Event) : List Nat :=
  events.filterMap fun e => match e with
    | Event.exit c => some c
    | _ => none

/-- Whether an event is a call into the `path` module made by the default-path
derivation (`dirname`, `extname`, `basename`, `join`). -/
def isDerivation : Event → Bool
  | Event.pathDirname _ => true
  | Event.pathExtname _ => true
  | Event.pathBasename _ _ => true
  | Event.pathJoin _ _ => true
  | _ => false

/-! ## A sample host

A small concrete host on which the statements below are exercised.  Its `path`
functions follow POSIX conventions on relative and absolute paths without
trailing or doubled slashes, its working directory is `/work`, its clock
advances by ten milliseconds per reading, and three files exist. -/

/-- The characters after the last slash. -/
def lastSegment (cs : List Char) : List Char :=
  (cs.reverse.takeWhile (fun c => c != '/')).reverse

/-- The characters before the last slash; `none` when there is no slash. -/
def beforeLastSlash (cs : List Char) : Option (List Char) :=
  if cs.contains '/' then some ((cs.reverse.dropWhile (fun c => c != '/')).drop 1).reverse
  else none

/-- The sample `path.dirname`. -/
def sampleDirname (p : String) : String :=
  match beforeLastSlash p.data with
  | none => "."
  | some [] => "/"
  | some d => String.mk d

/-- The sample `path.extname`: from the last dot of the last segment, unless the
segment has no dot or only a leading one. -/
def sampleExtname (p : String) : String :=
  let seg := lastSegment p.data
  let ext := (seg.reverse.takeWhile (fun c => c != '.')).reverse
  if seg.contains '.' && ext.length + 1 < seg.length then String.mk ('.' :: ext) else ""

/-- The sample `path.basename` with a suffix to strip. -/
def sampleBasename (p ext : String) : String :=
  let seg := lastSegment p.data
  if ext.data.length < seg.length && ext.data.isSuffixOf seg then
    String.mk (seg.take (seg.length - ext.data.length))
  else String.mk seg

/-- The sample `path.join` of a directory and a file name. -/
def sampleJoin (dir file : String) : String :=
  if dir == "." then file
  else if dir == "/" then "/" ++ file
  else dir ++ "/" ++ file

/-- The sample `path.resolve`, against the working directory `/work`. -/
def sampleResolve (p : String) : String :=
  if p.data.head? == some '/' then p
  else if p == "" then "/work"
  else "/work/" ++ p

/-- A number of hundredths rendered with two decimals. -/
def fixed2 (hundredths : Int) : String :=
  toString (hundredths / 100) ++ "." ++ toString (hundredths % 100 / 10)
    ++ toString (hundredths % 10)

/-- The sample host.  `resolved` is what `require.resolve` answers and `ran` what
`exec` answers, whatever the request and the command. -/
def sampleHost (resolved : Except JsError String) (ran : Except JsError ExecOutput) : Host where
  existsSync := fun p =>
    p == "model.obj" || p == "assets/1/model.obj" || p == "/work/assets/1/model.obj"
  requireResolve := fun _ => resolved
  exec := fun _ => ran
  hrtime := fun n => 10000000 * (n : Int)
  msFixed2 := fun d => fixed2 (d / 10000)
  secFixed2 := fun d => fixed2 (d / 10000000)
  dirname := sampleDirname
  extname := sampleExtname
  basename := sampleBasename
  join := sampleJoin
  resolve := sampleResolve
  inspect := fun e => "Error: " ++ e.message

/-- Where the sample host finds the converter. -/
def sampleTool : Except JsError String :=
  .ok "/app/node_modules/obj2gltf/bin/obj2gltf.js"

/-- The sample host with the converter installed and exiting with status 0,
having written `stderr`. -/
def okHost (stderr : String) : Host :=
  sampleHost sampleTool (.ok ⟨"", stderr⟩)

/-- The error of a converter that exits with a non-zero status. -/
def exitError : JsError :=
  ⟨"Command failed: node obj2gltf.js", [("code", "1")]⟩

/-- The error of a failed module resolution. -/
def moduleError : JsError :=
  ⟨"Cannot find module obj2gltf/bin/obj2gltf.js", [("code", "MODULE_NOT_FOUND")]⟩

/-! ## The specification's wording of the command line -/

/-- The option table of the specification: each option key with the flag it
stands for, in table order. -/
def flagTable : List (String × String) :=
  [("binary", "-b"), ("separate", "-s"), ("separateTextures", "-t"),
   ("checkTransparency", "--checkTransparency"), ("secure", "--secure"),
   ("packOcclusion", "--packOcclusion"), ("metallicRoughness", "--metallicRoughness"),
   ("specularGlossiness", "--specularGlossiness"), ("unlit", "--unlit")]

/-- The flags the specification asks for: those of the table whose option key
is truthy, in table order. -/
def emittedFlags (options : Options) : List String :=
  (flagTable.filter (fun kf => (options.get kf.1).truthy)).map Prod.snd

/-- A text between double quotes. -/
def quoted (s : String) : String :=
  "\"" ++ s ++ "\""

/-- The command line as the specification words it: `node`, the quoted
converter path, `-i` and the quoted input path, `-o` and the quoted output path,
then the emitted flags, all separated by single spaces. -/
def specCommand (tool inputPath outputPath : String) (options : Options) : String :=
  jsJoin " " (["node", quoted tool, "-i", quoted inputPath, "-o", quoted outputPath]
    ++ emittedFlags options)

/-! ## Lemmas on the argument array -/

theorem pushIf_eq (c : Bool) (flag : String) (args : List String) :
    pushIf c flag args = args ++ (if c then [flag] else []) := by
  unfold pushIf
  split <;> simp

theorem filter_cons_append {α : Type} (p : α → Bool) (a : α) (l : List α) :
    (a :: l).filter p = (if p a then [a] else []) ++ l.filter p := by
  by_cases hp : p a <;> simp [List.filter_cons, hp]

theorem map_if_single {α β : Type} (f : α → β) (c : Bool) (a : α) :
    (if c then [a] else []).map f = if c then [f a] else [] := by
  cases c <;> rfl

theorem buildArgs_eq (inputPath outputPath : String) (options : Options) :
    buildArgs inputPath outputPath options
      = ["-i \"" ++ inputPath ++ "\"", "-o \"" ++ outputPath ++ "\""]
        ++ emittedFlags options := by
  simp only [buildArgs, pushIf_eq, emittedFlags, flagTable, filter_cons_append,
    List.filter_nil, List.map_append, List.append_assoc, List.nil_append, List.append_nil,
    map_if_single, List.map_nil, List.cons_append]

theorem inputArg_data (s : String) :
    ("-i \"" ++ s ++ "\"").data = '-' :: 'i' :: ' ' :: '"' :: (s.data ++ ['"']) := by
  simp [String.data_append]

theorem outputArg_data (s : String) :
    ("-o \"" ++ s ++ "\"").data = '-' :: 'o' :: ' ' :: '"' :: (s.data ++ ['"']) := by
  simp [String.data_append]

theorem inputArg_ne (s flag : String) (hf : flag.data.get? 1 ≠ some 'i') :
    "-i \"" ++ s ++ "\"" ≠ flag := by
  intro h
  apply hf
  rw [← h, inputArg_data]
  rfl

theorem outputArg_ne (s flag : String) (hf : flag.data.get? 1 ≠ some 'o') :
    "-o \"" ++ s ++ "\"" ≠ flag := by
  intro h
  apply hf
  rw [← h, outputArg_data]
  rfl

theorem count_if_single (c : Bool) (a b : String) :
    (if c then [a] else []).count b = if c = true ∧ a = b then 1 else 0 := by
  cases c <;> by_cases hab : a = b <;> simp [hab, List.count_cons]

theorem count_emittedFlags (options : Options) (kf : String × String) (hkf : kf ∈ flagTable) :
    (emittedFlags options).count kf.2 = if (options.get kf.1).truthy then 1 else 0 := by
  simp only [flagTable, List.mem_cons, List.mem_singleton, List.not_mem_nil, or_false] at hkf
  rcases hkf with h | h | h | h | h | h | h | h | h <;> subst h <;>
    simp [emittedFlags, flagTable, filter_cons_append, map_if_single, count_if_single]

theorem emittedFlags_congr (options other : Options)
    (hsame : ∀ kf ∈ flagTable, (other.get kf.1).truthy = (options.get kf.1).truthy) :
    emittedFlags other = emittedFlags options := by
  unfold emittedFlags
  congr 1
  apply List.filter_congr
  intro kf hkf
  rw [hsame kf hkf]

theorem get_insert_other (pre post : Options) (key k : String) (value : JsValue)
    (hne : k ≠ key) :
    Options.get (pre ++ (key, value) :: post) k = Options.get (pre ++ post) k := by
  unfold Options.get
  congr 1
  induction pre with
  | nil =>
    have hb : (k == key) = false := by simpa using hne
    simp [List.lookup, hb]
  | cons kv pre ih =>
    obtain ⟨a, b⟩ := kv
    simp only [List.cons_append, List.lookup]
    split
    · rfl
    · exact ih

theorem lookup_perm (k : String) (l₁ l₂ : Options) (hp : l₁.Perm l₂)
    (hnd : (l₁.map Prod.fst).Nodup) : List.lookup k l₁ = List.lookup k l₂ := by
  induction hp with
  | nil => rfl
  | cons x _ ih =>
    obtain ⟨a, b⟩ := x
    simp only [List.map_cons, List.nodup_cons] at hnd
    simp only [List.lookup]
    split
    · rfl
    · exact ih hnd.2
  | swap x y l =>
    obtain ⟨a, b⟩ := x
    obtain ⟨c, d⟩ := y
    simp only [List.map_cons, List.nodup_cons, List.mem_cons, not_or] at hnd
    have hca : ¬ c = a := hnd.1.1
    simp only [List.lookup]
    by_cases h1 : k = c
    · subst h1
      have : (k == a) = false := by simpa using hca
      simp [this]
    · have : (k == c) = false := by simpa using h1
      simp [this]
  | trans hp₁ _ ih₁ ih₂ =>
    rw [ih₁ hnd]
    apply ih₂
    exact (hp₁.map Prod.fst).nodup_iff.mp hnd

theorem emittedFlags_sublist (options : Options) :
    (emittedFlags options).Sublist (flagTable.map Prod.snd) := by
  unfold emittedFlags
  exact List.Sublist.map _ (List.filter_sublist _)

/-! ## Lemmas on the command string -/

theorem jsJoin_cons_data (sep x : String) (rest : List String) :
    (jsJoin sep (x :: rest)).data
      = x.data ++ (if rest = [] then [] else sep.data ++ (jsJoin sep rest).data) := by
  cases rest with
  | nil => simp [jsJoin]
  | cons y r => simp [jsJoin, String.data_append]

theorem buildCommand_eq_specCommand (tool inputPath outputPath : String) (options : Options) :
    buildCommand tool (buildArgs inputPath outputPath options)
      = specCommand tool inputPath outputPath options := by
  rw [buildArgs_eq]
  apply String.ext
  simp only [buildCommand, specCommand, quoted, String.data_append, jsJoin_cons_data,
    List.cons_append, List.nil_append]
  simp

/-! ## Lemmas on `includes` -/

theorem jsIncludes_mid (a pat b : String) : jsIncludes (a ++ pat ++ b) pat = true := by
  unfold jsIncludes
  rw [List.any_eq_true]
  refine ⟨pat.data ++ b.data, ?_, ?_⟩
  · rw [List.mem_tails]
    simp only [String.data_append, List.append_assoc]
    exact List.suffix_append _ _
  · simp [List.isPrefixOf_iff_prefix]

/-! ## The four ways a call can go -/

theorem convert_missing (h : Host) (inputPath : String) (outputPath : Option String)
    (options : Options) (ticks : Nat) (hExists : h.existsSync inputPath = false) :
    convertObjToGltf h inputPath outputPath options ticks
      = ⟨.error (newError ("Input file not found: " ++ inputPath)),
          openingEvents inputPath outputPath
            ++ failureEvents h (newError ("Input file not found: " ++ inputPath))
                (h.hrtime (ticks + 1) - h.hrtime ticks),
          ticks + 2⟩ := by
  simp [convertObjToGltf, tryBody, hExists, openingEvents, failureEvents]

theorem convert_unresolved (h : Host) (inputPath : String) (outputPath : Option String)
    (options : Options) (ticks : Nat) (e : JsError) (hExists : h.existsSync inputPath = true)
    (hTool : h.requireResolve "obj2gltf/bin/obj2gltf.js" = .error e) :
    convertObjToGltf h inputPath outputPath options ticks
      = ⟨.error e,
          openingEvents inputPath outputPath ++ (effectiveOutput h inputPath outputPath).2
            ++ [Event.requireResolve "obj2gltf/bin/obj2gltf.js"]
            ++ failureEvents h e (h.hrtime (ticks + 1) - h.hrtime ticks),
          ticks + 2⟩ := by
  simp [convertObjToGltf, tryBody, hExists, hTool, openingEvents, failureEvents]

theorem convert_failed (h : Host) (inputPath : String) (outputPath : Option String)
    (options : Options) (ticks : Nat) (tool : String) (e : JsError)
    (hExists : h.existsSync inputPath = true)
    (hTool : h.requireResolve "obj2gltf/bin/obj2gltf.js" = .ok tool)
    (hExec : h.exec (commandFor h tool inputPath outputPath options) = .error e) :
    convertObjToGltf h inputPath outputPath options ticks
      = ⟨.error e,
          openingEvents inputPath outputPath ++ (effectiveOutput h inputPath outputPath).2
            ++ [Event.requireResolve "obj2gltf/bin/obj2gltf.js",
                Event.exec (commandFor h tool inputPath outputPath options)]
            ++ failureEvents h e (h.hrtime (ticks + 1) - h.hrtime ticks),
          ticks + 2⟩ := by
  unfold commandFor at hExec
  simp [convertObjToGltf, tryBody, hExists, hTool, hExec, openingEvents, failureEvents,
    commandFor]

theorem convert_succeeded (h : Host) (inputPath : String) (outputPath : Option String)
    (options : Options) (ticks : Nat) (tool : String) (result : ExecOutput)
    (hExists : h.existsSync inputPath = true)
    (hTool : h.requireResolve "obj2gltf/bin/obj2gltf.js" = .ok tool)
    (hExec : h.exec (commandFor h tool inputPath outputPath options) = .ok result) :
    convertObjToGltf h inputPath outputPath options ticks
      = ⟨.ok (effectiveOutput h inputPath outputPath).1,
          openingEvents inputPath outputPath ++ (effectiveOutput h inputPath outputPath).2
            ++ [Event.requireResolve "obj2gltf/bin/obj2gltf.js",
                Event.exec (commandFor h tool inputPath outputPath options)]
            ++ (if strTruthy result.stderr && !jsIncludes result.stderr "Warning" then
                  [Event.console Level.warn result.stderr] else [])
            ++ [Event.hrtime,
                Event.console Level.log ("Successfully converted " ++ inputPath ++ " to "
                  ++ (effectiveOutput h inputPath outputPath).1),
                Event.console Level.log ("변환 소요 시간: "
                  ++ timingText h (h.hrtime (ticks + 1) - h.hrtime ticks))],
          ticks + 2⟩ := by
  unfold commandFor at hExec
  by_cases hc : strTruthy result.stderr = true ∧ jsIncludes result.stderr "Warning" = false
  · simp [convertObjToGltf, tryBody, hExists, hTool, hExec, openingEvents, commandFor, hc]
  · simp [convertObjToGltf, tryBody, hExists, hTool, hExec, openingEvents, commandFor, hc]

theorem convert_cases (P : Run (Except JsError String) → Prop) (h : Host) (inputPath : String)
    (outputPath : Option String) (options : Options) (ticks : Nat)
    (hMissing : h.existsSync inputPath = false →
      P ⟨.error (newError ("Input file not found: " ++ inputPath)),
          openingEvents inputPath outputPath
            ++ failureEvents h (newError ("Input file not found: " ++ inputPath))
                (h.hrtime (ticks + 1) - h.hrtime ticks),
          ticks + 2⟩)
    (hUnresolved : ∀ e, h.existsSync inputPath = true →
      h.requireResolve "obj2gltf/bin/obj2gltf.js" = .error e →
      P ⟨.error e,
          openingEvents inputPath outputPath ++ (effectiveOutput h inputPath outputPath).2
            ++ [Event.requireResolve "obj2gltf/bin/obj2gltf.js"]
            ++ failureEvents h e (h.hrtime (ticks + 1) - h.hrtime ticks),
          ticks + 2⟩)
    (hFailed : ∀ tool e, h.existsSync inputPath = true →
      h.requireResolve "obj2gltf/bin/obj2gltf.js" = .ok tool →
      h.exec (commandFor h tool inputPath outputPath options) = .error e →
      P ⟨.error e,
          openingEvents inputPath outputPath ++ (effectiveOutput h inputPath outputPath).2
            ++ [Event.requireResolve "obj2gltf/bin/obj2gltf.js",
                Event.exec (commandFor h tool inputPath outputPath options)]
            ++ failureEvents h e (h.hrtime (ticks + 1) - h.hrtime ticks),
          ticks + 2⟩)
    (hSucceeded : ∀ tool result, h.existsSync inputPath = true →
      h.requireResolve "obj2gltf/bin/obj2gltf.js" = .ok tool →
      h.exec (commandFor h tool inputPath outputPath options) = .ok result →
      P ⟨.ok (effectiveOutput h inputPath outputPath).1,
          openingEvents inputPath outputPath ++ (effectiveOutput h inputPath outputPath).2
            ++ [Event.requireResolve "obj2gltf/bin/obj2gltf.js",
                Event.exec (commandFor h tool inputPath outputPath options)]
            ++ (if strTruthy result.stderr && !jsIncludes result.stderr "Warning" then
                  [Event.console Level.warn result.stderr] else [])
            ++ [Event.hrtime,
                Event.console Level.log ("Successfully converted " ++ inputPath ++ " to "
                  ++ (effectiveOutput h inputPath outputPath).1),
                Event.console Level.log ("변환 소요 시간: "
                  ++ timingText h (h.hrtime (ticks + 1) - h.hrtime ticks))],
          ticks + 2⟩) :
    P (convertObjToGltf h inputPath outputPath options ticks) := by
  cases hx : h.existsSync inputPath with
  | false => rw [convert_missing h inputPath outputPath options ticks hx]; exact hMissing hx
  | true =>
    cases hr : h.requireResolve "obj2gltf/bin/obj2gltf.js" with
    | error e =>
      rw [convert_unresolved h inputPath outputPath options ticks e hx hr]
      exact hUnresolved e hx hr
    | ok tool =>
      cases hc : h.exec (commandFor h tool inputPath outputPath options) with
      | error e =>
        rw [convert_failed h inputPath outputPath options ticks tool e hx hr hc]
        exact hFailed tool e hx hr hc
      | ok result =>
        rw [convert_succeeded h inputPath outputPath options ticks tool result hx hr hc]
        exact hSucceeded tool result hx hr hc

/-! ## Lemmas on reading a run -/

theorem effectiveOutput_events (h : Host) (inputPath : String) (outputPath : Option String) :
    execCalls (effectiveOutput h inputPath outputPath).2 = [] ∧
    resolveCalls (effectiveOutput h inputPath outputPath).2 = [] ∧
    convertCalls (effectiveOutput h inputPath outputPath).2 = [] ∧
    exitCalls (effectiveOutput h inputPath outputPath).2 = [] ∧
    ∀ level, consoleAt level (effectiveOutput h inputPath outputPath).2 = [] := by
  unfold effectiveOutput
  cases outputPath with
  | none => simp [deriveOutput, execCalls, resolveCalls, convertCalls, exitCalls, consoleAt]
  | some s =>
    by_cases hs : strTruthy s = true <;>
      simp [hs, deriveOutput, execCalls, resolveCalls, convertCalls, exitCalls, consoleAt]

theorem effectiveOutput_given (h : Host) (inputPath outputPath : String)
    (hGiven : outputPath ≠ "") :
    effectiveOutput h inputPath (some outputPath) = (outputPath, []) := by
  simp [effectiveOutput, strTruthy, hGiven]

theorem effectiveOutput_absent (h : Host) (inputPath : String) :
    (effectiveOutput h inputPath none).1
      = h.join (h.dirname inputPath) (h.basename inputPath (h.extname inputPath) ++ ".gltf") := by
  simp [effectiveOutput, deriveOutput]

theorem execCalls_append (a b : List Event) : execCalls (a ++ b) = execCalls a ++ execCalls b := by
  simp [execCalls]

theorem resolveCalls_append (a b : List Event) :
    resolveCalls (a ++ b) = resolveCalls a ++ resolveCalls b := by
  simp [resolveCalls]

theorem convertCalls_append (a b : List Event) :
    convertCalls (a ++ b) = convertCalls a ++ convertCalls b := by
  simp [convertCalls]

theorem exitCalls_append (a b : List Event) : exitCalls (a ++ b) = exitCalls a ++ exitCalls b := by
  simp [exitCalls]

theorem consoleAt_append (level : Level) (a b : List Event) :
    consoleAt level (a ++ b) = consoleAt level a ++ consoleAt level b := by
  simp [consoleAt]

theorem convertCalls_convert (h : Host) (inputPath : String) (outputPath : Option String)
    (options : Options) (ticks : Nat) :
    convertCalls (convertObjToGltf h inputPath outputPath options ticks).events
      = [(inputPath, outputPath)] := by
  have hout := (effectiveOutput_events h inputPath outputPath).2.2.1
  apply convert_cases (fun r => convertCalls r.events = [(inputPath, outputPath)])
  · intro _
    simp [convertCalls, openingEvents, failureEvents]
  · intro e _ _
    simp only [convertCalls_append, hout]
    simp [convertCalls, openingEvents, failureEvents]
  · intro tool e _ _ _
    simp only [convertCalls_append, hout]
    simp [convertCalls, openingEvents, failureEvents]
  · intro tool result _ _ _
    simp only [convertCalls_append, hout]
    split <;> simp [convertCalls, openingEvents]

theorem exitCalls_convert (h : Host) (inputPath : String) (outputPath : Option String)
    (options : Options) (ticks : Nat) :
    exitCalls (convertObjToGltf h inputPath outputPath options ticks).events = [] := by
  have hout := (effectiveOutput_events h inputPath outputPath).2.2.2.1
  apply convert_cases (fun r => exitCalls r.events = [])
  · intro _
    simp [exitCalls, openingEvents, failureEvents]
  · intro e _ _
    simp only [exitCalls_append, hout]
    simp [exitCalls, openingEvents, failureEvents]
  · intro tool e _ _ _
    simp only [exitCalls_append, hout]
    simp [exitCalls, openingEvents, failureEvents]
  · intro tool result _ _ _
    simp only [exitCalls_append, hout]
    split <;> simp [exitCalls, openingEvents]

/-! ## The output path -/

/-- C1: for an input path that exists, any options object and an absent
`outputPath`, when the converter is found and its subprocess exits with status 0
the call resolves with exactly
`path.join(path.dirname(inputPath), path.basename(inputPath, path.extname(inputPath)) + ".gltf")`. -/
theorem C1_default_output_path (h : Host) (inputPath : String) (options : Options)
    (ticks : Nat) (tool : String) (result : ExecOutput)
    (hExists : h.existsSync inputPath = true)
    (hTool : h.requireResolve "obj2gltf/bin/obj2gltf.js" = .ok tool)
    (hExit : h.exec (commandFor h tool inputPath none options) = .ok result) :
    (convertObjToGltf h inputPath none options ticks).value
      = .ok (h.join (h.dirname inputPath)
          (h.basename inputPath (h.extname inputPath) ++ ".gltf")) := by
  rw [convert_succeeded h inputPath none options ticks tool result hExists hTool hExit,
    effectiveOutput_absent]

/-- On the sample host the input `assets/1/model.obj` resolves to
`assets/1/model.gltf`, and the bare input `model.obj`, whose directory is `.`,
resolves to `model.gltf`. -/
theorem C1_default_output_path_witness :
    (convertObjToGltf (okHost "") "assets/1/model.obj" none [] 0).value
      = .ok "assets/1/model.gltf" ∧
    (convertObjToGltf (okHost "") "model.obj" none [("binary", JsValue.bool true)] 0).value
      = .ok "model.gltf" :=
  ⟨C1_default_output_path (okHost "") "assets/1/model.obj" [] 0
    "/app/node_modules/obj2gltf/bin/obj2gltf.js" ⟨"", ""⟩ rfl rfl rfl,
   C1_default_output_path (okHost "") "model.obj" [("binary", JsValue.bool true)] 0
    "/app/node_modules/obj2gltf/bin/obj2gltf.js" ⟨"", ""⟩ rfl rfl rfl⟩

/-- C2, as stated, fails: the empty string is a string value of `outputPath`,
yet with it the default-path derivation runs and the call resolves with the
derived path, not with the empty string. -/
theorem C2_empty_output_path_counterexample :
    (okHost "").existsSync "assets/1/model.obj" = true ∧
    (okHost "").requireResolve "obj2gltf/bin/obj2gltf.js" = sampleTool ∧
    (okHost "").exec (commandFor (okHost "") "/app/node_modules/obj2gltf/bin/obj2gltf.js"
      "assets/1/model.obj" (some "") []) = .ok ⟨"", ""⟩ ∧
    (convertObjToGltf (okHost "") "assets/1/model.obj" (some "") [] 0).value
      = .ok "assets/1/model.gltf" ∧
    (convertObjToGltf (okHost "") "assets/1/model.obj" (some "") [] 0).value ≠ .ok "" ∧
    (convertObjToGltf (okHost "") "assets/1/model.obj" (some "") [] 0).events.any isDerivation
      = true := by
  refine ⟨rfl, rfl, rfl, rfl, ?_, rfl⟩
  intro hEq
  have hv : (convertObjToGltf (okHost "") "assets/1/model.obj" (some "") [] 0).value
      = .ok "assets/1/model.gltf" := rfl
  rw [hv] at hEq
  injection hEq with hs
  exact absurd hs (by decide)

/-- C2, amended: for every non-empty string supplied as `outputPath` the call
never runs the default-path derivation, whatever its outcome, and when the
input exists, the converter is found and its subprocess exits with status 0 the
call resolves with the supplied `outputPath` verbatim. -/
theorem C2_explicit_output_path (h : Host) (inputPath outputPath : String) (options : Options)
    (ticks : Nat) (hGiven : outputPath ≠ "") :
    (convertObjToGltf h inputPath (some outputPath) options ticks).events.any isDerivation
      = false ∧
    ∀ (tool : String) (result : ExecOutput),
      h.existsSync inputPath = true →
      h.requireResolve "obj2gltf/bin/obj2gltf.js" = .ok tool →
      h.exec (commandFor h tool inputPath (some outputPath) options) = .ok result →
      (convertObjToGltf h inputPath (some outputPath) options ticks).value = .ok outputPath := by
  have hout := effectiveOutput_given h inputPath outputPath hGiven
  constructor
  · apply convert_cases (fun r => r.events.any isDerivation = false)
    · intro _
      simp [openingEvents, failureEvents, isDerivation]
    · intro e _ _
      simp [hout, openingEvents, failureEvents, isDerivation]
    · intro tool e _ _ _
      simp [hout, openingEvents, failureEvents, isDerivation]
    · intro tool result _ _ _
      rw [hout]
      split <;> simp [openingEvents, isDerivation]
  · intro tool result hExists hTool hExit
    rw [convert_succeeded h inputPath (some outputPath) options ticks tool result hExists hTool
      hExit, hout]

/-- On the sample host the explicit output path `out.gltf` is returned as given
and no derivation call is made. -/
theorem C2_explicit_output_path_witness :
    "out.gltf" ≠ "" ∧
    (convertObjToGltf (okHost "") "assets/1/model.obj" (some "out.gltf") [] 0).events.any
      isDerivation = false ∧
    (convertObjToGltf (okHost "") "assets/1/model.obj" (some "out.gltf") [] 0).value
      = .ok "out.gltf" :=
  ⟨by decide,
   (C2_explicit_output_path (okHost "") "assets/1/model.obj" "out.gltf" [] 0 (by decide)).1,
   (C2_explicit_output_path (okHost "") "assets/1/model.obj" "out.gltf" [] 0 (by decide)).2
     "/app/node_modules/obj2gltf/bin/obj2gltf.js" ⟨"", ""⟩ rfl rfl rfl⟩

/-! ## The missing input -/

/-- C3: for an `inputPath` that does not exist (and any `outputPath` and
options) the call rejects with an error whose message is
`Input file not found: ` followed by `inputPath`, so the message contains
`inputPath` and says `not found`; `require.resolve` is not called and `exec` is
not called. -/
theorem C3_missing_input_rejects (h : Host) (inputPath : String) (outputPath : Option String)
    (options : Options) (ticks : Nat) (hMissing : h.existsSync inputPath = false) :
    ∃ e : JsError,
      (convertObjToGltf h inputPath outputPath options ticks).value = .error e ∧
      e.message = "Input file not found: " ++ inputPath ∧
      jsIncludes e.message inputPath = true ∧
      jsIncludes e.message "not found" = true ∧
      resolveCalls (convertObjToGltf h inputPath outputPath options ticks).events = [] ∧
      execCalls (convertObjToGltf h inputPath outputPath options ticks).events = [] := by
  refine ⟨newError ("Input file not found: " ++ inputPath), ?_, rfl, ?_, ?_, ?_, ?_⟩
  · rw [convert_missing h inputPath outputPath options ticks hMissing]
  · have hm := jsIncludes_mid "Input file not found: " inputPath ""
    rw [String.append_empty] at hm
    exact hm
  · have hm := jsIncludes_mid "Input file " "not found" (": " ++ inputPath)
    have hs : "Input file " ++ "not found" ++ (": " ++ inputPath)
        = "Input file not found: " ++ inputPath := by
      apply String.ext
      simp [String.data_append]
    rw [hs] at hm
    exact hm
  · rw [convert_missing h inputPath outputPath options ticks hMissing]
    simp [resolveCalls, openingEvents, failureEvents]
  · rw [convert_missing h inputPath outputPath options ticks hMissing]
    simp [execCalls, openingEvents, failureEvents]

/-- On the sample host `missing.obj` does not exist, and the call rejects
without resolving the converter or spawning a subprocess. -/
theorem C3_missing_input_rejects_witness :
    (okHost "").existsSync "missing.obj" = false ∧
    ∃ e : JsError,
      (convertObjToGltf (okHost "") "missing.obj" none [] 0).value = .error e ∧
      e.message = "Input file not found: " ++ "missing.obj" ∧
      jsIncludes e.message "missing.obj" = true ∧
      jsIncludes e.message "not found" = true ∧
      resolveCalls (convertObjToGltf (okHost "") "missing.obj" none [] 0).events = [] ∧
      execCalls (convertObjToGltf (okHost "") "missing.obj" none [] 0).events = [] :=
  ⟨rfl, C3_missing_input_rejects (okHost "") "missing.obj" none [] 0 rfl⟩

/-! ## The flags and the command line -/

/-- C4: for every options object, each of the nine flags occurs in the argument
array of the converter invocation exactly once when its option key is truthy and
not at all otherwise; so a key that is absent behaves like `false`, options whose
nine keys agree in truthiness give the same arguments, a key outside the table changes
nothing wherever it is inserted, and `binary: true, unlit: true` gives exactly
`-b` and `--unlit` after the two path arguments. -/
theorem C4_flag_iff_truthy (inputPath outputPath : String) (options : Options) :
    (∀ kf ∈ flagTable,
      (buildArgs inputPath outputPath options).count kf.2
        = if (options.get kf.1).truthy then 1 else 0) ∧
    (∀ kf ∈ flagTable,
      (kf.2 ∈ buildArgs inputPath outputPath options ↔ (options.get kf.1).truthy = true)) ∧
    (∀ kf ∈ flagTable, List.lookup kf.1 options = none →
      kf.2 ∉ buildArgs inputPath outputPath options) ∧
    (∀ other : Options,
      (∀ kf ∈ flagTable, (other.get kf.1).truthy = (options.get kf.1).truthy) →
      buildArgs inputPath outputPath other = buildArgs inputPath outputPath options) ∧
    (∀ (pre post : Options) (key : String) (value : JsValue),
      key ∉ flagTable.map Prod.fst →
      buildArgs inputPath outputPath (pre ++ (key, value) :: post)
        = buildArgs inputPath outputPath (pre ++ post)) ∧
    buildArgs inputPath outputPath [("binary", JsValue.bool true), ("unlit", JsValue.bool true)]
      = ["-i \"" ++ inputPath ++ "\"", "-o \"" ++ outputPath ++ "\"", "-b", "--unlit"] := by
  have hcount : ∀ kf ∈ flagTable,
      (buildArgs inputPath outputPath options).count kf.2
        = if (options.get kf.1).truthy then 1 else 0 := by
    intro kf hkf
    have hi : "-i \"" ++ inputPath ++ "\"" ≠ kf.2 := by
      apply inputArg_ne
      simp only [flagTable, List.mem_cons, List.mem_singleton, List.not_mem_nil, or_false] at hkf
      rcases hkf with h | h | h | h | h | h | h | h | h <;> subst h <;> decide
    have ho : "-o \"" ++ outputPath ++ "\"" ≠ kf.2 := by
      apply outputArg_ne
      simp only [flagTable, List.mem_cons, List.mem_singleton, List.not_mem_nil, or_false] at hkf
      rcases hkf with h | h | h | h | h | h | h | h | h <;> subst h <;> decide
    rw [buildArgs_eq, List.count_append, count_emittedFlags options kf hkf]
    simp [List.count_cons, hi, ho]
  have hmem : ∀ kf ∈ flagTable,
      (kf.2 ∈ buildArgs inputPath outputPath options ↔ (options.get kf.1).truthy = true) := by
    intro kf hkf
    rw [← List.count_pos_iff, hcount kf hkf]
    cases (options.get kf.1).truthy <;> simp
  refine ⟨hcount, hmem, ?_, ?_, ?_, ?_⟩
  · intro kf hkf hnone
    rw [hmem kf hkf]
    simp [Options.get, hnone, JsValue.truthy]
  · intro other hsame
    rw [buildArgs_eq, buildArgs_eq, emittedFlags_congr options other hsame]
  · intro pre post key value hkey
    rw [buildArgs_eq, buildArgs_eq]
    congr 1
    apply emittedFlags_congr
    intro kf hkf
    congr 1
    apply get_insert_other
    intro hk
    apply hkey
    rw [← hk]
    exact List.mem_map_of_mem Prod.fst hkf
  · rw [buildArgs_eq]
    rfl

/-- The options `binary: true, junk: 7, unlit: ""`: `-b` is emitted once, the
unknown key changes nothing and the falsy `unlit` emits nothing. -/
theorem C4_flag_iff_truthy_witness :
    (buildArgs "model.obj" "out.gltf"
        [("binary", JsValue.bool true), ("junk", JsValue.number 7),
         ("unlit", JsValue.string "")]).count "-b" = 1 ∧
    "--unlit" ∉ buildArgs "model.obj" "out.gltf"
        [("binary", JsValue.bool true), ("junk", JsValue.number 7),
         ("unlit", JsValue.string "")] ∧
    "-s" ∉ buildArgs "model.obj" "out.gltf"
        [("binary", JsValue.bool true), ("junk", JsValue.number 7),
         ("unlit", JsValue.string "")] ∧
    buildArgs "model.obj" "out.gltf"
        ([("binary", JsValue.bool true)] ++ ("junk", JsValue.number 7)
          :: [("unlit", JsValue.string "")])
      = buildArgs "model.obj" "out.gltf"
        ([("binary", JsValue.bool true)] ++ [("unlit", JsValue.string "")]) ∧
    buildArgs "model.obj" "out.gltf" [("unlit", JsValue.bool false), ("secure", JsValue.null)]
      = buildArgs "model.obj" "out.gltf" [] :=
  ⟨(C4_flag_iff_truthy "model.obj" "out.gltf"
      [("binary", JsValue.bool true), ("junk", JsValue.number 7),
       ("unlit", JsValue.string "")]).1 ("binary", "-b") (by decide),
   fun hIn => absurd
     (((C4_flag_iff_truthy "model.obj" "out.gltf"
      [("binary", JsValue.bool true), ("junk", JsValue.number 7),
       ("unlit", JsValue.string "")]).2.1 ("unlit", "--unlit") (by decide)).mp hIn)
     (by decide),
   (C4_flag_iff_truthy "model.obj" "out.gltf"
      [("binary", JsValue.bool true), ("junk", JsValue.number 7),
       ("unlit", JsValue.string "")]).2.2.1 ("separate", "-s") (by decide) rfl,
   (C4_flag_iff_truthy "model.obj" "out.gltf" []).2.2.2.2.1
      [("binary", JsValue.bool true)] [("unlit", JsValue.string "")] "junk"
      (JsValue.number 7) (by decide),
   (C4_flag_iff_truthy "model.obj" "out.gltf" []).2.2.2.1
      [("unlit", JsValue.bool false), ("secure", JsValue.null)] (by decide)⟩

theorem buildArgs_perm (inputPath outputPath : String) (options other : Options)
    (hPerm : other.Perm options) (hKeys : options.keys.Nodup) :
    buildArgs inputPath outputPath other = buildArgs inputPath outputPath options := by
  rw [buildArgs_eq, buildArgs_eq]
  congr 1
  apply emittedFlags_congr
  intro kf _
  unfold Options.get
  rw [lookup_perm kf.1 options other hPerm.symm hKeys]

/-- C5: when the input exists and the converter is found at `tool`, exactly one
command is handed to `exec`, and it is `node`, the double-quoted `tool`, `-i`,
the double-quoted input path as given, `-o`, the double-quoted effective output
path and the emitted flags, separated by single spaces.  The argument array is
the two path arguments followed by the emitted flags and nothing else, so no
flag carries a value; the emitted flags are a sublist of the table, so they keep
the table order; and reordering the keys of the options object changes nothing. -/
theorem C5_command_format (h : Host) (inputPath : String) (outputPath : Option String)
    (options : Options) (ticks : Nat) (tool : String)
    (hExists : h.existsSync inputPath = true)
    (hTool : h.requireResolve "obj2gltf/bin/obj2gltf.js" = .ok tool) :
    execCalls (convertObjToGltf h inputPath outputPath options ticks).events
      = [specCommand tool inputPath (effectiveOutput h inputPath outputPath).1 options] ∧
    buildArgs inputPath (effectiveOutput h inputPath outputPath).1 options
      = ["-i " ++ quoted inputPath, "-o " ++ quoted (effectiveOutput h inputPath outputPath).1]
        ++ emittedFlags options ∧
    (emittedFlags options).Sublist
      ["-b", "-s", "-t", "--checkTransparency", "--secure", "--packOcclusion",
       "--metallicRoughness", "--specularGlossiness", "--unlit"] ∧
    (∀ other : Options, other.Perm options → options.keys.Nodup →
      convertObjToGltf h inputPath outputPath other ticks
        = convertObjToGltf h inputPath outputPath options ticks) := by
  have hout := (effectiveOutput_events h inputPath outputPath).1
  have hcmd : commandFor h tool inputPath outputPath options
      = specCommand tool inputPath (effectiveOutput h inputPath outputPath).1 options := by
    unfold commandFor
    exact buildCommand_eq_specCommand _ _ _ _
  refine ⟨?_, ?_, emittedFlags_sublist options, ?_⟩
  · cases hc : h.exec (commandFor h tool inputPath outputPath options) with
    | error e =>
      rw [convert_failed h inputPath outputPath options ticks tool e hExists hTool hc]
      simp only [execCalls_append, hout, hcmd]
      simp [execCalls, openingEvents, failureEvents]
    | ok result =>
      rw [convert_succeeded h inputPath outputPath options ticks tool result hExists hTool hc]
      simp only [execCalls_append, hout, hcmd]
      split <;> simp [execCalls, openingEvents]
  · rw [buildArgs_eq]
    rfl
  · intro other hPerm hKeys
    simp only [convertObjToGltf, tryBody, buildArgs_perm _ _ options other hPerm hKeys]

/-- On the sample host the options `unlit: true, binary: true`, given in that
order, produce the command with `-b` before `--unlit`. -/
theorem C5_command_format_witness :
    execCalls (convertObjToGltf (okHost "") "assets/1/model.obj" (some "out.gltf")
        [("unlit", JsValue.bool true), ("binary", JsValue.bool true)] 0).events
      = ["node \"/app/node_modules/obj2gltf/bin/obj2gltf.js\" -i \"assets/1/model.obj\" -o \"out.gltf\" -b --unlit"] ∧
    convertObjToGltf (okHost "") "assets/1/model.obj" (some "out.gltf")
        [("binary", JsValue.bool true), ("unlit", JsValue.bool true)] 0
      = convertObjToGltf (okHost "") "assets/1/model.obj" (some "out.gltf")
        [("unlit", JsValue.bool true), ("binary", JsValue.bool true)] 0 :=
  ⟨(C5_command_format (okHost "") "assets/1/model.obj" (some "out.gltf")
      [("unlit", JsValue.bool true), ("binary", JsValue.bool true)] 0
      "/app/node_modules/obj2gltf/bin/obj2gltf.js" rfl rfl).1,
   (C5_command_format (okHost "") "assets/1/model.obj" (some "out.gltf")
      [("unlit", JsValue.bool true), ("binary", JsValue.bool true)] 0
      "/app/node_modules/obj2gltf/bin/obj2gltf.js" rfl rfl).2.2.2
      [("binary", JsValue.bool true), ("unlit", JsValue.bool true)]
      (List.Perm.swap _ _ _) (by decide)⟩

/-! ## Failure -/

theorem mem_consoleAt (level : Level) (text : String) (events : List Event)
    (hIn : Event.console level text ∈ events) : text ∈ consoleAt level events := by
  unfold consoleAt
  rw [List.mem_filterMap]
  exact ⟨Event.console level text, hIn, by simp⟩

/-- C6: each kind of failure rejects with the error that was raised, unchanged:
a missing input with the error built at line 22, an unresolvable converter with
the error of `require.resolve`, and a non-zero exit or an error thrown by `exec`
with the error of `exec`; every rejection is one of these; and whatever the
outcome, `exec` is called at most once. -/
theorem C6_error_propagates_unchanged (h : Host) (inputPath : String)
    (outputPath : Option String) (options : Options) (ticks : Nat) :
    (h.existsSync inputPath = false →
      (convertObjToGltf h inputPath outputPath options ticks).value
        = .error (newError ("Input file not found: " ++ inputPath))) ∧
    (∀ e : JsError, h.existsSync inputPath = true →
      h.requireResolve "obj2gltf/bin/obj2gltf.js" = .error e →
      (convertObjToGltf h inputPath outputPath options ticks).value = .error e) ∧
    (∀ (tool : String) (e : JsError), h.existsSync inputPath = true →
      h.requireResolve "obj2gltf/bin/obj2gltf.js" = .ok tool →
      h.exec (commandFor h tool inputPath outputPath options) = .error e →
      (convertObjToGltf h inputPath outputPath options ticks).value = .error e) ∧
    (∀ e : JsError, (convertObjToGltf h inputPath outputPath options ticks).value = .error e →
      (h.existsSync inputPath = false ∧ e = newError ("Input file not found: " ++ inputPath)) ∨
      h.requireResolve "obj2gltf/bin/obj2gltf.js" = .error e ∨
      ∃ tool, h.requireResolve "obj2gltf/bin/obj2gltf.js" = .ok tool ∧
        h.exec (commandFor h tool inputPath outputPath options) = .error e) ∧
    (execCalls (convertObjToGltf h inputPath outputPath options ticks).events).length ≤ 1 := by
  have hout := (effectiveOutput_events h inputPath outputPath).1
  refine ⟨?_, ?_, ?_, ?_, ?_⟩
  · intro hx
    rw [convert_missing h inputPath outputPath options ticks hx]
  · intro e hx hr
    rw [convert_unresolved h inputPath outputPath options ticks e hx hr]
  · intro tool e hx hr hc
    rw [convert_failed h inputPath outputPath options ticks tool e hx hr hc]
  · apply convert_cases (fun r => ∀ e : JsError, r.value = .error e →
      (h.existsSync inputPath = false ∧ e = newError ("Input file not found: " ++ inputPath)) ∨
      h.requireResolve "obj2gltf/bin/obj2gltf.js" = .error e ∨
      ∃ tool, h.requireResolve "obj2gltf/bin/obj2gltf.js" = .ok tool ∧
        h.exec (commandFor h tool inputPath outputPath options) = .error e)
    · intro hx e he
      injection he with he
      exact Or.inl ⟨hx, he.symm⟩
    · intro e0 _ hr e he
      injection he with he
      exact Or.inr (Or.inl (he ▸ hr))
    · intro tool e0 _ hr hc e he
      injection he with he
      exact Or.inr (Or.inr ⟨tool, hr, he ▸ hc⟩)
    · intro tool result _ _ _ e he
      cases he
  · apply convert_cases (fun r => (execCalls r.events).length ≤ 1)
    · intro _
      simp [execCalls, openingEvents, failureEvents]
    · intro e _ _
      simp only [execCalls_append, hout]
      simp [execCalls, openingEvents, failureEvents]
    · intro tool e _ _ _
      simp only [execCalls_append, hout]
      simp [execCalls, openingEvents, failureEvents]
    · intro tool result _ _ _
      simp only [execCalls_append, hout]
      split <;> simp [execCalls, openingEvents]

/-- On the sample host: a missing input, a converter that cannot be resolved and
a converter that exits with a non-zero status each reject with the error that
was raised. -/
theorem C6_error_propagates_unchanged_witness :
    (convertObjToGltf (okHost "") "missing.obj" none [] 0).value
      = .error (newError "Input file not found: missing.obj") ∧
    (convertObjToGltf (sampleHost (.error moduleError) (.ok ⟨"", ""⟩)) "assets/1/model.obj"
      none [] 0).value = .error moduleError ∧
    (convertObjToGltf (sampleHost sampleTool (.error exitError)) "assets/1/model.obj"
      none [] 0).value = .error exitError ∧
    (execCalls (convertObjToGltf (sampleHost sampleTool (.error exitError))
      "assets/1/model.obj" none [] 0).events).length ≤ 1 :=
  ⟨(C6_error_propagates_unchanged (okHost "") "missing.obj" none [] 0).1 rfl,
   (C6_error_propagates_unchanged (sampleHost (.error moduleError) (.ok ⟨"", ""⟩))
      "assets/1/model.obj" none [] 0).2.1 moduleError rfl rfl,
   (C6_error_propagates_unchanged (sampleHost sampleTool (.error exitError))
      "assets/1/model.obj" none [] 0).2.2.1 "/app/node_modules/obj2gltf/bin/obj2gltf.js"
      exitError rfl rfl rfl,
   (C6_error_propagates_unchanged (sampleHost sampleTool (.error exitError))
      "assets/1/model.obj" none [] 0).2.2.2.2⟩

/-- C10: whenever the call rejects, on the early failure paths too, the
error-level output is exactly the line carrying the error message followed by
the time-to-failure line, these are the last things the call does, nothing is
written at the log level, and so the success message is never written. -/
theorem C10_failure_is_logged (h : Host) (inputPath : String) (outputPath : Option String)
    (options : Options) (ticks : Nat) (e : JsError)
    (hRejects : (convertObjToGltf h inputPath outputPath options ticks).value = .error e) :
    consoleAt Level.error (convertObjToGltf h inputPath outputPath options ticks).events
      = ["Error converting OBJ to glTF: " ++ e.message,
         "실패까지 소요 시간: " ++ timingText h (h.hrtime (ticks + 1) - h.hrtime ticks)] ∧
    (∃ before : List Event,
      (convertObjToGltf h inputPath outputPath options ticks).events
        = before ++ [Event.hrtime,
            Event.console Level.error ("Error converting OBJ to glTF: " ++ e.message),
            Event.console Level.error ("실패까지 소요 시간: "
              ++ timingText h (h.hrtime (ticks + 1) - h.hrtime ticks))]) ∧
    consoleAt Level.log (convertObjToGltf h inputPath outputPath options ticks).events = [] ∧
    (∀ out : String,
      Event.console Level.log ("Successfully converted " ++ inputPath ++ " to " ++ out)
        ∉ (convertObjToGltf h inputPath outputPath options ticks).events) := by
  have hout := (effectiveOutput_events h inputPath outputPath).2.2.2.2
  have hmain : ∀ e : JsError,
      (convertObjToGltf h inputPath outputPath options ticks).value = .error e →
      consoleAt Level.error (convertObjToGltf h inputPath outputPath options ticks).events
        = ["Error converting OBJ to glTF: " ++ e.message,
           "실패까지 소요 시간: " ++ timingText h (h.hrtime (ticks + 1) - h.hrtime ticks)] ∧
      (∃ before : List Event,
        (convertObjToGltf h inputPath outputPath options ticks).events
          = before ++ failureEvents h e (h.hrtime (ticks + 1) - h.hrtime ticks)) ∧
      consoleAt Level.log (convertObjToGltf h inputPath outputPath options ticks).events
        = [] := by
    apply convert_cases (fun r => ∀ e : JsError, r.value = .error e →
      consoleAt Level.error r.events
        = ["Error converting OBJ to glTF: " ++ e.message,
           "실패까지 소요 시간: " ++ timingText h (h.hrtime (ticks + 1) - h.hrtime ticks)] ∧
      (∃ before : List Event,
        r.events = before ++ failureEvents h e (h.hrtime (ticks + 1) - h.hrtime ticks)) ∧
      consoleAt Level.log r.events = [])
    · intro _ e he
      injection he with he
      subst he
      refine ⟨?_, ⟨_, rfl⟩, ?_⟩ <;> simp [consoleAt, openingEvents, failureEvents]
    · intro e0 _ _ e he
      injection he with he
      subst he
      refine ⟨?_, ⟨_, rfl⟩, ?_⟩ <;>
        (simp only [consoleAt_append, hout]; simp [consoleAt, openingEvents, failureEvents])
    · intro tool e0 _ _ _ e he
      injection he with he
      subst he
      refine ⟨?_, ⟨_, rfl⟩, ?_⟩ <;>
        (simp only [consoleAt_append, hout]; simp [consoleAt, openingEvents, failureEvents])
    · intro tool result _ _ _ e he
      cases he
  obtain ⟨h1, h2, h3⟩ := hmain e hRejects
  refine ⟨h1, h2, h3, ?_⟩
  intro out hIn
  have := mem_consoleAt _ _ _ hIn
  rw [h3] at this
  cases this

/-- On the sample host the missing input `missing.obj` is an early failure, and
both error lines are written. -/
theorem C10_failure_is_logged_witness :
    (convertObjToGltf (okHost "") "missing.obj" none [] 0).value
      = .error (newError "Input file not found: missing.obj") ∧
    consoleAt Level.error (convertObjToGltf (okHost "") "missing.obj" none [] 0).events
      = ["Error converting OBJ to glTF: Input file not found: missing.obj",
         "실패까지 소요 시간: 10.00ms (0.01s)"] :=
  ⟨rfl, (C10_failure_is_logged (okHost "") "missing.obj" none [] 0
      (newError "Input file not found: missing.obj") rfl).1⟩

/-! ## The standard-error text of a successful run -/

/-- C9: when the input exists, the converter is found and its subprocess exits
with status 0, the call resolves with the effective output path whatever the
captured standard-error text is, and that text is written at the warning level
exactly when it is non-empty and does not include `Warning`; nothing else is
ever written at the warning level. -/
theorem C9_stderr_warning (h : Host) (inputPath : String) (outputPath : Option String)
    (options : Options) (ticks : Nat) (tool : String) (result : ExecOutput)
    (hExists : h.existsSync inputPath = true)
    (hTool : h.requireResolve "obj2gltf/bin/obj2gltf.js" = .ok tool)
    (hExit : h.exec (commandFor h tool inputPath outputPath options) = .ok result) :
    (convertObjToGltf h inputPath outputPath options ticks).value
      = .ok (effectiveOutput h inputPath outputPath).1 ∧
    (Event.console Level.warn result.stderr
        ∈ (convertObjToGltf h inputPath outputPath options ticks).events
      ↔ result.stderr ≠ "" ∧ jsIncludes result.stderr "Warning" = false) ∧
    consoleAt Level.warn (convertObjToGltf h inputPath outputPath options ticks).events
      = (if result.stderr ≠ "" ∧ jsIncludes result.stderr "Warning" = false
          then [result.stderr] else []) := by
  have hout := (effectiveOutput_events h inputPath outputPath).2.2.2.2
  have hwarn : consoleAt Level.warn
      (convertObjToGltf h inputPath outputPath options ticks).events
      = (if result.stderr ≠ "" ∧ jsIncludes result.stderr "Warning" = false
          then [result.stderr] else []) := by
    rw [convert_succeeded h inputPath outputPath options ticks tool result hExists hTool hExit]
    simp only [consoleAt_append, hout]
    by_cases hc : result.stderr ≠ "" ∧ jsIncludes result.stderr "Warning" = false
    · have hc2 : result.stderr ≠ "" ∧ jsIncludes result.stderr "Warning" = false := hc
      simp only [ne_eq] at hc2
      simp [consoleAt, openingEvents, strTruthy, hc2]
    · have hc2 : ¬ (result.stderr ≠ "" ∧ jsIncludes result.stderr "Warning" = false) := hc
      simp only [ne_eq] at hc2
      simp [consoleAt, openingEvents, strTruthy, hc2]
  refine ⟨?_, ?_, hwarn⟩
  · rw [convert_succeeded h inputPath outputPath options ticks tool result hExists hTool hExit]
  · constructor
    · intro hIn
      have hm := mem_consoleAt _ _ _ hIn
      rw [hwarn] at hm
      by_contra hc
      rw [if_neg hc] at hm
      cases hm
    · intro hc
      rw [convert_succeeded h inputPath outputPath options ticks tool result hExists hTool hExit]
      have hb : (strTruthy result.stderr && !jsIncludes result.stderr "Warning") = true := by
        simp [strTruthy, hc.1, hc.2]
      rw [if_pos hb]
      simp

/-- On the sample host: the text `warning: lowercase` is written at the warning
level (the match is case-sensitive) and the call still resolves. -/
theorem C9_stderr_warning_witness :
    (convertObjToGltf (okHost "warning: lowercase") "assets/1/model.obj" none [] 0).value
      = .ok "assets/1/model.gltf" ∧
    consoleAt Level.warn
      (convertObjToGltf (okHost "warning: lowercase") "assets/1/model.obj" none [] 0).events
      = ["warning: lowercase"] :=
  ⟨(C9_stderr_warning (okHost "warning: lowercase") "assets/1/model.obj" none [] 0
      "/app/node_modules/obj2gltf/bin/obj2gltf.js" ⟨"", "warning: lowercase"⟩
      rfl rfl rfl).1,
   (C9_stderr_warning (okHost "warning: lowercase") "assets/1/model.obj" none [] 0
      "/app/node_modules/obj2gltf/bin/obj2gltf.js" ⟨"", "warning: lowercase"⟩
      rfl rfl rfl).2.2⟩

/-! ## The command-line entry point -/

/-- C7: run directly with an empty argument list, the entry point writes the
usage line and two examples, one with an explicit output path and one without,
to standard error, calls `process.exit(1)`, and never calls `convertObjToGltf`. -/
theorem C7_usage_on_no_arguments (h : Host) (processArgv : List String)
    (hNone : processArgv.drop 2 = []) :
    (cli h true processArgv).value = some 1 ∧
    (cli h true processArgv).events
      = [Event.console Level.error "사용법: node objToGltf.js <input.obj> [output.gltf]",
         Event.console Level.error
           "예시: node objToGltf.js assets/1/model.obj assets/1/model.gltf",
         Event.console Level.error
           "예시: node objToGltf.js assets/1/model.obj  (출력 경로 자동 생성)",
         Event.exit 1] ∧
    convertCalls (cli h true processArgv).events = [] := by
  simp [cli, hNone, usageLines, convertCalls]

/-- The sample invocation `node objToGltf.js` has no argument. -/
theorem C7_usage_on_no_arguments_witness :
    (cli (okHost "") true ["node", "objToGltf.js"]).value = some 1 ∧
    convertCalls (cli (okHost "") true ["node", "objToGltf.js"]).events = [] :=
  ⟨(C7_usage_on_no_arguments (okHost "") ["node", "objToGltf.js"] rfl).1,
   (C7_usage_on_no_arguments (okHost "") ["node", "objToGltf.js"] rfl).2.2⟩

/-- C8: run directly with a non-empty argument list, the entry point calls
`convertObjToGltf` once, on the resolved paths; it calls `process.exit(1)`
exactly when that call rejects; and when the call resolves it logs
`Conversion completed: ` with the resolved output path and never calls
`process.exit`. -/
theorem C8_cli_exit_status (h : Host) (processArgv : List String) (a0 : String)
    (rest : List String) (hArgs : processArgv.drop 2 = a0 :: rest) :
    convertCalls (cli h true processArgv).events
      = [(h.resolve a0, (cliOutputFile h rest).1)] ∧
    ((cli h true processArgv).value = some 1
      ↔ ∃ e, (convertObjToGltf h (h.resolve a0) (cliOutputFile h rest).1 [] 1).value
          = .error e) ∧
    (exitCalls (cli h true processArgv).events = [1]
      ↔ ∃ e, (convertObjToGltf h (h.resolve a0) (cliOutputFile h rest).1 [] 1).value
          = .error e) ∧
    (∀ out, (convertObjToGltf h (h.resolve a0) (cliOutputFile h rest).1 [] 1).value = .ok out →
      (cli h true processArgv).value = none ∧
      exitCalls (cli h true processArgv).events = [] ∧
      Event.console Level.log ("Conversion completed: " ++ out)
        ∈ (cli h true processArgv).events) := by
  have hcc := convertCalls_convert h (h.resolve a0) (cliOutputFile h rest).1 [] 1
  have hec := exitCalls_convert h (h.resolve a0) (cliOutputFile h rest).1 [] 1
  have hof : convertCalls (cliOutputFile h rest).2 = [] ∧
      exitCalls (cliOutputFile h rest).2 = [] := by
    unfold cliOutputFile
    cases rest with
    | nil => simp [convertCalls, exitCalls]
    | cons a1 r => by_cases hs : strTruthy a1 = true <;> simp [hs, convertCalls, exitCalls]
  cases hv : (convertObjToGltf h (h.resolve a0) (cliOutputFile h rest).1 [] 1).value with
  | error e =>
    have hcli : cli h true processArgv
        = ⟨some 1, [Event.pathResolve a0] ++ (cliOutputFile h rest).2 ++ [Event.hrtime]
            ++ (convertObjToGltf h (h.resolve a0) (cliOutputFile h rest).1 [] 1).events
            ++ [Event.hrtime,
              Event.console Level.error ("Conversion failed: " ++ h.inspect e),
              Event.console Level.error ("전체 실행 시간: " ++ timingText h
                (h.hrtime (convertObjToGltf h (h.resolve a0) (cliOutputFile h rest).1 [] 1).ticks
                  - h.hrtime 0)),
              Event.exit 1],
            (convertObjToGltf h (h.resolve a0) (cliOutputFile h rest).1 [] 1).ticks + 1⟩ := by
      simp [cli, hArgs, hv]
    rw [hcli]
    simp only [convertCalls_append, exitCalls_append, hcc, hec, hof.1, hof.2]
    simp [convertCalls, exitCalls]
  | ok out =>
    have hcli : cli h true processArgv
        = ⟨none, [Event.pathResolve a0] ++ (cliOutputFile h rest).2 ++ [Event.hrtime]
            ++ (convertObjToGltf h (h.resolve a0) (cliOutputFile h rest).1 [] 1).events
            ++ [Event.hrtime,
              Event.console Level.log ("Conversion completed: " ++ out),
              Event.console Level.log ("전체 실행 시간: " ++ timingText h
                (h.hrtime (convertObjToGltf h (h.resolve a0) (cliOutputFile h rest).1 [] 1).ticks
                  - h.hrtime 0))],
            (convertObjToGltf h (h.resolve a0) (cliOutputFile h rest).1 [] 1).ticks + 1⟩ := by
      simp [cli, hArgs, hv]
    rw [hcli]
    simp only [convertCalls_append, exitCalls_append, hcc, hec, hof.1, hof.2]
    simp [convertCalls, exitCalls]

/-- On the sample host: `node objToGltf.js assets/1/model.obj` converts and never
exits, `node objToGltf.js missing.obj` exits with status 1. -/
theorem C8_cli_exit_status_witness :
    convertCalls (cli (okHost "") true ["node", "objToGltf.js", "assets/1/model.obj"]).events
      = [("/work/assets/1/model.obj", none)] ∧
    (cli (okHost "") true ["node", "objToGltf.js", "assets/1/model.obj"]).value = none ∧
    (cli (okHost "") true ["node", "objToGltf.js", "missing.obj"]).value = some 1 :=
  ⟨(C8_cli_exit_status (okHost "") ["node", "objToGltf.js", "assets/1/model.obj"]
      "assets/1/model.obj" [] rfl).1,
   ((C8_cli_exit_status (okHost "") ["node", "objToGltf.js", "assets/1/model.obj"]
      "assets/1/model.obj" [] rfl).2.2.2 "/work/assets/1/model.gltf" rfl).1,
   (C8_cli_exit_status (okHost "") ["node", "objToGltf.js", "missing.obj"]
      "missing.obj" [] rfl).2.1.mpr ⟨newError "Input file not found: /work/missing.obj", rfl⟩⟩

end ObjToGltf
